import Mathlib

/-!
Verification of the gradient-descent optimizer engine of
`src/01-main/support.py`.

Modelling conventions:
* Numeric values are exact rationals (`ℚ`); IEEE-754 rounding is abstracted
  away, so the theorems describe the real-arithmetic behaviour of the code.
* A numpy array is modelled by `Tensor`: either a Python scalar / 0-d array
  (`Tensor.scl`) or a 1-d array (`Tensor.vec`).  Elementwise binary
  operations follow numpy 1-d broadcasting: equal lengths combine
  elementwise, a scalar or a length-one vector broadcasts, and any other
  length combination raises a `ValueError`.
* `anp.sqrt` is modelled as an uninterpreted parameter `sqrt : ℚ → ℚ`;
  theorems that need a property of the square root (non-negativity on
  non-negative arguments) take it as an explicit hypothesis.
* Exceptions are modelled with `Except PyErr`; a method that mutates
  instance attributes is modelled as a function returning a pair of the
  call's result and the new state, with assignments that precede a raise
  reflected in the returned state.
-/

/-- Python exceptions that the modelled code can raise. -/
inductive PyErr where
  /-- `raise NotImplementedError(msg)` in the `else` branches of the
  `lp`-dispatch. -/
  | notImplementedError (msg : String)
  /-- numpy `ValueError` from broadcasting arrays of incompatible shapes. -/
  | valueError
  /-- Python `TypeError` from applying a numeric operation to `None`. -/
  | typeError
  deriving Repr, DecidableEq

/-- A numpy value: a scalar (Python float / 0-d array) or a 1-d array. -/
inductive Tensor where
  | scl (x : ℚ)
  | vec (xs : List ℚ)
  deriving Repr, DecidableEq

namespace Tensor

/-- Elementwise unary map (numpy ufunc applied to a scalar or an array). -/
def map (f : ℚ → ℚ) : Tensor → Tensor
  | scl x => scl (f x)
  | vec xs => vec (xs.map f)

/-- Elementwise binary operation with numpy 1-d broadcasting: scalars and
length-one vectors broadcast against any vector; two vectors of distinct
lengths (neither of length one) raise a `ValueError`. -/
def bop (f : ℚ → ℚ → ℚ) : Tensor → Tensor → Except PyErr Tensor
  | scl a, scl b => .ok (scl (f a b))
  | scl a, vec bs => .ok (vec (bs.map (fun b => f a b)))
  | vec as, scl b => .ok (vec (as.map (fun a => f a b)))
  | vec as, vec bs =>
      if as.length = bs.length then .ok (vec (List.zipWith f as bs))
      else if as.length = 1 then .ok (vec (bs.map (fun b => f as.headI b)))
      else if bs.length = 1 then .ok (vec (as.map (fun a => f a bs.headI)))
      else .error .valueError

/-- Tensor addition `a + b`. -/
def add (a b : Tensor) : Except PyErr Tensor := bop (fun x y => x + y) a b

/-- Tensor subtraction `a - b`. -/
def sub (a b : Tensor) : Except PyErr Tensor := bop (fun x y => x - y) a b

/-- Tensor multiplication `a * b`. -/
def mul (a b : Tensor) : Except PyErr Tensor := bop (fun x y => x * y) a b

/-- Scalar times tensor, `c * t` with `c` a Python float: never fails. -/
def smul (c : ℚ) (t : Tensor) : Tensor := t.map (fun x => c * x)

end Tensor

/-- numpy `anp.sign`, elementwise on one rational. -/
def npSign (x : ℚ) : ℚ := if 0 < x then 1 else if x < 0 then -1 else 0

/-- numpy `anp.sign` on a tensor. -/
def Tensor.sign (t : Tensor) : Tensor := t.map npSign

/-- Regularization penalty selected by the order `lp`, as described by the
spec's regularization policy: order 0 adds nothing, order 1 adds
`lambda * sign(previous_update)`, order 2 adds `lambda * previous_update`.
Used as the specification side of refinement statements. -/
def regularization (theta_m1 : Tensor) (lmbda : ℚ) (lp : ℤ) : Tensor :=
  if lp = 1 then Tensor.smul lmbda theta_m1.sign
  else if lp = 2 then Tensor.smul lmbda theta_m1
  else Tensor.scl 0

/-- Hyperparameters of `PlainGD` (`support.py` lines 43-49): learning rate
`eta`, regularization coefficient `lmbda`, regularization order `lp`.
`PlainGD` holds no mutable state. -/
structure PlainGD where
  eta : ℚ := 1 / 100
  lmbda : ℚ := 0
  lp : ℤ := 0
  deriving Repr, DecidableEq

namespace PlainGD

/-- `PlainGD.update_change` (`support.py` lines 51-59).  `theta_m1` has a
Python default of `None`; using `None` in branches `lp = 1` or `lp = 2`
raises a `TypeError` (numeric operation on `None`). -/
def update_change (o : PlainGD) (gradient : Tensor)
    (theta_m1 : Option Tensor := none) : Except PyErr Tensor :=
  if o.lp = 0 then
    .ok (Tensor.smul o.eta gradient)
  else if o.lp = 1 then
    match theta_m1 with
    | none => .error .typeError
    | some th => Tensor.add (Tensor.smul o.eta gradient) (Tensor.smul o.lmbda th.sign)
  else if o.lp = 2 then
    match theta_m1 with
    | none => .error .typeError
    | some th => Tensor.add (Tensor.smul o.eta gradient) (Tensor.smul o.lmbda th)
  else
    .error (.notImplementedError "No method for lp > 2 has been implemented")

end PlainGD

/-- Hyperparameters of `MomentumGD` (`support.py` lines 65-73): learning
rate, momentum coefficient, regularization coefficient and order.  No
mutable state. -/
structure MomentumGD where
  eta : ℚ := 1 / 100
  mom : ℚ := 0
  lmbda : ℚ := 0
  lp : ℤ := 0
  deriving Repr, DecidableEq

namespace MomentumGD

/-- `MomentumGD.update_change` (`support.py` lines 76-84). -/
def update_change (o : MomentumGD) (gradient theta_m1 : Tensor) :
    Except PyErr Tensor :=
  if o.lp = 0 then
    Tensor.add (Tensor.smul o.eta gradient) (Tensor.smul o.mom theta_m1)
  else if o.lp = 1 then do
    let base ← Tensor.add (Tensor.smul o.eta gradient) (Tensor.smul o.mom theta_m1)
    Tensor.add base (Tensor.smul o.lmbda theta_m1.sign)
  else if o.lp = 2 then do
    let base ← Tensor.add (Tensor.smul o.eta gradient) (Tensor.smul o.mom theta_m1)
    Tensor.add base (Tensor.smul o.lmbda theta_m1)
  else
    .error (.notImplementedError "No method for lp > 2 has been implemented")

end MomentumGD

/-- Tensor division `a / b` (elementwise with broadcasting). -/
def Tensor.div (a b : Tensor) : Except PyErr Tensor :=
  Tensor.bop (fun x y => x / y) a b

/-- Hyperparameters of `Adagrad` (`support.py` lines 90-100). -/
structure Adagrad where
  eta : ℚ := 1 / 100
  mom : ℚ := 0
  lmbda : ℚ := 0
  lp : ℤ := 0
  deriving Repr, DecidableEq

/-- Mutable state of an `Adagrad` instance: the attribute
`adagrad_learn_rate`, initialized to `None` in `__init__` and overwritten
on every `update_change` call; it is never read by any method. -/
structure AdagradState where
  adagrad_learn_rate : Option Tensor := none
  deriving Repr, DecidableEq

namespace Adagrad

/-- The adaptive learning rate `(self.eta)/(delta + anp.sqrt(gradient2))`
computed at `support.py` lines 103-105, with `delta = 1e-7` and
`gradient2 = gradient*gradient`. -/
def adaptive_rate (sqrt : ℚ → ℚ) (o : Adagrad) (gradient : Tensor) : Tensor :=
  (gradient.map (fun x => x * x)).map (fun y => o.eta / (1 / 10000000 + sqrt y))

/-- The value returned by `Adagrad.update_change` (`support.py` lines
106-113); it reads no instance state other than the hyperparameters. -/
def update_result (sqrt : ℚ → ℚ) (o : Adagrad) (gradient theta_m1 : Tensor) :
    Except PyErr Tensor :=
  let rate := adaptive_rate sqrt o gradient
  if o.lp = 0 then do
    let base ← Tensor.mul gradient rate
    Tensor.add base (Tensor.smul o.mom theta_m1)
  else if o.lp = 1 then do
    let base ← Tensor.mul gradient rate
    let withMom ← Tensor.add base (Tensor.smul o.mom theta_m1)
    Tensor.add withMom (Tensor.smul o.lmbda theta_m1.sign)
  else if o.lp = 2 then do
    let base ← Tensor.mul gradient rate
    let withMom ← Tensor.add base (Tensor.smul o.mom theta_m1)
    Tensor.add withMom (Tensor.smul o.lmbda theta_m1)
  else
    .error (.notImplementedError "No method for lp > 2 has been implemented")

/-- `Adagrad.update_change` (`support.py` lines 102-113).  The assignment
`self.adagrad_learn_rate = ...` at line 105 executes before the
`lp`-dispatch, so the returned state carries the fresh rate even when the
call raises. -/
def update_change (sqrt : ℚ → ℚ) (o : Adagrad) (_st : AdagradState)
    (gradient theta_m1 : Tensor) : Except PyErr Tensor × AdagradState :=
  (update_result sqrt o gradient theta_m1,
   { adagrad_learn_rate := some (adaptive_rate sqrt o gradient) })

/-- `Adagrad.reset` (`support.py` lines 115-116). -/
def reset (_st : AdagradState) : AdagradState := { adagrad_learn_rate := none }

end Adagrad

/-- Hyperparameters of `RMSprop` (`support.py` lines 119-126). -/
structure RMSprop where
  eta : ℚ := 1 / 100
  decay : ℚ := 9 / 10
  lmbda : ℚ := 0
  deriving Repr, DecidableEq

/-- Mutable state of an `RMSprop` instance: the moving average
`rmsProp_update`, initialized to `0.0`. -/
structure RMSpropState where
  rmsProp_update : Tensor := .scl 0
  deriving Repr, DecidableEq

namespace RMSprop

/-- The right-hand side of line 131 of `support.py`:
`self.decay * self.rmsProp_update + (1 - self.decay)*gradient*gradient`. -/
def vstep (o : RMSprop) (v gradient : Tensor) : Except PyErr Tensor := do
  let g2 ← Tensor.mul (Tensor.smul (1 - o.decay) gradient) gradient
  Tensor.add (Tensor.smul o.decay v) g2

/-- `RMSprop.update_change` (`support.py` lines 128-133), with
`delta = 1e-8`.  If computing the new moving average raises, the attribute
is left unchanged; once it is assigned, a failure in the returned
expression still leaves the new average in place. -/
def update_change (sqrt : ℚ → ℚ) (o : RMSprop) (st : RMSpropState)
    (gradient theta_m1 : Tensor) : Except PyErr Tensor × RMSpropState :=
  match vstep o st.rmsProp_update gradient with
  | .error e => (.error e, st)
  | .ok v2 =>
      (do
        let scaled ← Tensor.mul
          ((v2.map (fun x => x + 1 / 100000000)).map (fun x => o.eta / sqrt x))
          gradient
        Tensor.add scaled (Tensor.smul o.lmbda theta_m1),
       { rmsProp_update := v2 })

/-- `RMSprop.reset` (`support.py` lines 135-136). -/
def reset (_st : RMSpropState) : RMSpropState := { rmsProp_update := .scl 0 }

end RMSprop

/-- Hyperparameters of `ADAM` (`support.py` lines 139-146), with the
default decay pair `[0.9, 0.99]`. -/
structure ADAM where
  eta : ℚ := 1 / 100
  decay1 : ℚ := 9 / 10
  decay2 : ℚ := 99 / 100
  lmbda : ℚ := 0
  deriving Repr, DecidableEq

/-- Mutable state of an `ADAM` instance (`support.py` lines 148-150):
first moment `s`, second moment `r` (both initialized to `0.0`) and the
step counter `t` (initialized to `1`). -/
structure ADAMState where
  s : Tensor := .scl 0
  r : Tensor := .scl 0
  t : ℕ := 1
  deriving Repr, DecidableEq

namespace ADAM

/-- The state an `ADAM` instance holds right after `__init__`. -/
def initState : ADAMState := {}

/-- The right-hand side of line 155 of `support.py`:
`self.decay1*self.s + (1. - self.decay1)*gradient`. -/
def sstep (o : ADAM) (s gradient : Tensor) : Except PyErr Tensor :=
  Tensor.add (Tensor.smul o.decay1 s) (Tensor.smul (1 - o.decay1) gradient)

/-- The right-hand side of line 156 of `support.py`:
`self.decay2*self.r + (1. - self.decay2)*gradient*gradient`. -/
def rstep (o : ADAM) (r gradient : Tensor) : Except PyErr Tensor := do
  let g2 ← Tensor.mul (Tensor.smul (1 - o.decay2) gradient) gradient
  Tensor.add (Tensor.smul o.decay2 r) g2

/-- `ADAM.update_change` (`support.py` lines 152-161), with `delta = 1e-8`.
The assignments to `s` and `r` happen in order before the bias-corrected
return expression, and `t` is never written by this method. -/
def update_change (sqrt : ℚ → ℚ) (o : ADAM) (st : ADAMState)
    (gradient theta_m1 : Tensor) : Except PyErr Tensor × ADAMState :=
  match sstep o st.s gradient with
  | .error e => (.error e, st)
  | .ok s2 =>
      match rstep o st.r gradient with
      | .error e => (.error e, { st with s := s2 })
      | .ok r2 =>
          let s_corr := s2.map (fun x => x / (1 - o.decay1 ^ st.t))
          let r_corr := r2.map (fun x => x / (1 - o.decay2 ^ st.t))
          (do
            let ratio ← Tensor.div s_corr
              ((r_corr.map sqrt).map (fun x => x + 1 / 100000000))
            Tensor.add (Tensor.smul o.eta ratio) (Tensor.smul o.lmbda theta_m1),
           { s := s2, r := r2, t := st.t })

/-- `ADAM.reset` (`support.py` lines 163-165): zero the moments and
increment the step counter. -/
def reset (st : ADAMState) : ADAMState :=
  { s := .scl 0, r := .scl 0, t := st.t + 1 }

/-- Folding a sequence of `update_change` calls over the state, threading
only the state (the training loop's repeated calls with no intervening
`reset`). -/
def runUpdates (sqrt : ℚ → ℚ) (o : ADAM) (st : ADAMState) :
    List (Tensor × Tensor) → ADAMState
  | [] => st
  | (g, th) :: rest => runUpdates sqrt o (update_change sqrt o st g th).2 rest

end ADAM

/-- Specification-side formula for Adagrad's update, written from the
spec's words: elementwise
`gradient * (eta / (eps + sqrt(gradient*gradient)))
  + momentum * previous_update + regularization_term(previous_update)`
with `eps = 1e-7` and the `lp`-selected regularization policy. -/
def adagradSpecUpdate (sqrt : ℚ → ℚ) (eta mom lmbda : ℚ) (lp : ℤ)
    (gradient theta_m1 : Tensor) : Except PyErr Tensor := do
  let scaled ← Tensor.mul gradient
    (gradient.map (fun x => eta / (1 / 10000000 + sqrt (x * x))))
  let withMom ← Tensor.add scaled (Tensor.smul mom theta_m1)
  Tensor.add withMom (regularization theta_m1 lmbda lp)

/-! Helper lemmas about the tensor operations. -/

lemma Tensor.bop_vec (f : ℚ → ℚ → ℚ) (as bs : List ℚ) (h : as.length = bs.length) :
    Tensor.bop f (.vec as) (.vec bs) = .ok (.vec (List.zipWith f as bs)) := by
  simp [Tensor.bop, h]

lemma Tensor.add_scl_zero (t : Tensor) : Tensor.add t (.scl 0) = .ok t := by
  cases t <;> simp [Tensor.add, Tensor.bop]

lemma Tensor.map_map_fuse (f g : ℚ → ℚ) (t : Tensor) :
    (t.map g).map f = t.map (fun x => f (g x)) := by
  cases t <;> simp [Tensor.map]

lemma zipWith_left_fused (f φ : ℚ → ℚ → ℚ) :
    ∀ (as bs : List ℚ), List.zipWith f (List.zipWith φ as bs) bs
      = List.zipWith (fun a b => f (φ a b) b) as bs
  | [], _ => by simp
  | _ :: _, [] => by simp
  | a :: as, b :: bs => by
      simp [List.zipWith, zipWith_left_fused f φ as bs]

lemma ADAM.update_change_snd_t (sqrt : ℚ → ℚ) (o : ADAM) (st : ADAMState)
    (gradient theta_m1 : Tensor) :
    (ADAM.update_change sqrt o st gradient theta_m1).2.t = st.t := by
  cases hs : ADAM.sstep o st.s gradient with
  | error e => simp [ADAM.update_change, hs]
  | ok s2 =>
      cases hr : ADAM.rstep o st.r gradient with
      | error e => simp [ADAM.update_change, hs, hr]
      | ok r2 => simp [ADAM.update_change, hs, hr]

lemma ADAM.runUpdates_t (sqrt : ℚ → ℚ) (o : ADAM) :
    ∀ (calls : List (Tensor × Tensor)) (st : ADAMState),
      (ADAM.runUpdates sqrt o st calls).t = st.t
  | [], _ => rfl
  | (g, th) :: rest, st => by
      rw [ADAM.runUpdates, ADAM.runUpdates_t sqrt o rest,
        ADAM.update_change_snd_t]

/-! Theorems settling the claims. -/

/-- C3: for every gradient tensor, a `PlainGD` instance configured with
`lp = 0` returns exactly `eta * gradient` from `update_change`, whatever
`previous_update` is passed. -/
theorem plainGD_lp0_returns_eta_mul_gradient (o : PlainGD) (gradient : Tensor)
    (theta_m1 : Option Tensor) (h : o.lp = 0) :
    o.update_change gradient theta_m1 = .ok (Tensor.smul o.eta gradient) := by
  simp [PlainGD.update_change, h]

/-- Witness for C3 at a concrete optimizer and gradient. -/
theorem plainGD_lp0_returns_eta_mul_gradient_witness :
    PlainGD.update_change { eta := 1/10, lmbda := 5, lp := 0 }
      (.vec [2, -3]) (some (.vec [7, 7])) = .ok (.vec [1/5, -3/10]) := by
  have h := plainGD_lp0_returns_eta_mul_gradient
    { eta := 1/10, lmbda := 5, lp := 0 } (.vec [2, -3]) (some (.vec [7, 7])) rfl
  rw [h]
  norm_num [Tensor.smul, Tensor.map]

/-- C9: `PlainGD.update_change` with `lp = 0` never reads `theta_m1`: any
two values of the argument, including the omitted `None` default, give the
same returned update. -/
theorem plainGD_lp0_independent_of_theta (o : PlainGD) (gradient : Tensor)
    (th1 th2 : Option Tensor) (h : o.lp = 0) :
    o.update_change gradient th1 = o.update_change gradient th2 := by
  simp [PlainGD.update_change, h]

/-- Witness for C9: omitted versus supplied `previous_update`. -/
theorem plainGD_lp0_independent_of_theta_witness :
    PlainGD.update_change { eta := 1/100, lmbda := 2, lp := 0 } (.scl 1) none
      = PlainGD.update_change { eta := 1/100, lmbda := 2, lp := 0 } (.scl 1)
          (some (.vec [3, 4])) :=
  plainGD_lp0_independent_of_theta _ _ _ _ rfl

/-- C7: `ADAM.reset` sets the first-moment accumulator `s` to 0 and the
second-moment accumulator `r` to 0, and increments the step counter `t` by
one; starting from any reachable counter value (`t ≥ 1`) it never
reinitializes `t` to 1. -/
theorem adam_reset_zeroes_moments_increments_t (st : ADAMState) :
    ADAM.reset st = { s := .scl 0, r := .scl 0, t := st.t + 1 } ∧
    (1 ≤ st.t → (ADAM.reset st).t ≠ 1) := by
  refine ⟨rfl, fun h => ?_⟩
  simp only [ADAM.reset]
  omega

/-- Witness for C7 at the construction-time state. -/
theorem adam_reset_zeroes_moments_increments_t_witness :
    ADAM.reset ADAM.initState = { s := .scl 0, r := .scl 0, t := 2 } ∧
    (ADAM.reset ADAM.initState).t ≠ 1 := by
  have h := adam_reset_zeroes_moments_increments_t ADAM.initState
  exact ⟨h.1, h.2 (by norm_num [ADAM.initState])⟩

/-- C10: `ADAM.update_change` never writes the step counter `t`: one call
preserves it, any sequence of calls with no intervening `reset` preserves
it, construction initializes it to 1, only `reset` changes it, and hence
the bias-correction divisors `1 - decay1 ^ t` and `1 - decay2 ^ t` are the
same on every call of such a sequence. -/
theorem adam_update_never_touches_t (sqrt : ℚ → ℚ) (o : ADAM) (st : ADAMState)
    (gradient theta_m1 : Tensor) (calls : List (Tensor × Tensor)) :
    (ADAM.update_change sqrt o st gradient theta_m1).2.t = st.t ∧
    (ADAM.runUpdates sqrt o st calls).t = st.t ∧
    ADAM.initState.t = 1 ∧
    (ADAM.reset st).t ≠ st.t ∧
    1 - o.decay1 ^ (ADAM.runUpdates sqrt o st calls).t = 1 - o.decay1 ^ st.t ∧
    1 - o.decay2 ^ (ADAM.runUpdates sqrt o st calls).t = 1 - o.decay2 ^ st.t := by
  refine ⟨ADAM.update_change_snd_t sqrt o st gradient theta_m1,
    ADAM.runUpdates_t sqrt o calls st, rfl, ?_, ?_, ?_⟩
  · simp only [ADAM.reset]
    omega
  · rw [ADAM.runUpdates_t sqrt o calls st]
  · rw [ADAM.runUpdates_t sqrt o calls st]

lemma exceptBind_ok {α β : Type} (x : α) (f : α → Except PyErr β) :
    (Except.ok x : Except PyErr α) >>= f = f x := rfl

lemma exceptBind_error {α β : Type} (e : PyErr) (f : α → Except PyErr β) :
    (Except.error e : Except PyErr α) >>= f = (Except.error e : Except PyErr β) := rfl

/-- C1 (amended): for `PlainGD`, `MomentumGD` and `Adagrad`,
`update_change` with `lp` outside {0,1,2} fails with the
`NotImplementedError` realizing the spec's `UnsupportedRegularizationOrder`.
`PlainGD` and `MomentumGD` hold no state, so nothing is mutated; `Adagrad`
overwrites its diagnostic `adagrad_learn_rate` attribute before raising,
but since no call ever reads that attribute, a follow-up `update_change`
with any arguments returns the same result as if the failing call had
never happened. -/
theorem invalid_lp_fails_like_unsupported_order
    (eta mom lmbda : ℚ) (lp : ℤ) (h0 : lp ≠ 0) (h1 : lp ≠ 1) (h2 : lp ≠ 2)
    (sqrt : ℚ → ℚ) (st : AdagradState) (gradient theta_m1 : Tensor)
    (thOpt : Option Tensor) :
    PlainGD.update_change { eta := eta, lmbda := lmbda, lp := lp } gradient thOpt
        = .error (.notImplementedError "No method for lp > 2 has been implemented") ∧
    MomentumGD.update_change { eta := eta, mom := mom, lmbda := lmbda, lp := lp }
        gradient theta_m1
        = .error (.notImplementedError "No method for lp > 2 has been implemented") ∧
    (Adagrad.update_change sqrt { eta := eta, mom := mom, lmbda := lmbda, lp := lp }
        st gradient theta_m1).1
        = .error (.notImplementedError "No method for lp > 2 has been implemented") ∧
    (∀ (o2 : Adagrad) (g2 th2 : Tensor),
       (Adagrad.update_change sqrt o2
          (Adagrad.update_change sqrt { eta := eta, mom := mom, lmbda := lmbda, lp := lp }
             st gradient theta_m1).2 g2 th2).1
         = (Adagrad.update_change sqrt o2 st g2 th2).1) := by
  refine ⟨?_, ?_, ?_, fun o2 g2 th2 => rfl⟩
  · simp [PlainGD.update_change, h0, h1, h2]
  · simp [MomentumGD.update_change, h0, h1, h2]
  · simp [Adagrad.update_change, Adagrad.update_result, h0, h1, h2]

/-- Witness for the amended C1 at `lp = 3`. -/
theorem invalid_lp_fails_like_unsupported_order_witness :
    PlainGD.update_change { eta := 1, lmbda := 2, lp := 3 } (.scl 1) none
        = .error (.notImplementedError "No method for lp > 2 has been implemented") ∧
    MomentumGD.update_change { eta := 1, mom := 0, lmbda := 2, lp := 3 } (.scl 1) (.scl 0)
        = .error (.notImplementedError "No method for lp > 2 has been implemented") ∧
    (Adagrad.update_change (fun x => x) { eta := 1, mom := 0, lmbda := 2, lp := 3 }
        { adagrad_learn_rate := none } (.scl 1) (.scl 0)).1
        = .error (.notImplementedError "No method for lp > 2 has been implemented") ∧
    ((Adagrad.update_change (fun x => x) { eta := 1, mom := 0, lmbda := 0, lp := 0 }
        (Adagrad.update_change (fun x => x) { eta := 1, mom := 0, lmbda := 2, lp := 3 }
           { adagrad_learn_rate := none } (.scl 1) (.scl 0)).2 (.scl 2) (.scl 3)).1
       = (Adagrad.update_change (fun x => x) { eta := 1, mom := 0, lmbda := 0, lp := 0 }
           { adagrad_learn_rate := none } (.scl 2) (.scl 3)).1) := by
  have h := invalid_lp_fails_like_unsupported_order 1 0 2 3 (by decide) (by decide)
    (by decide) (fun x => x) { adagrad_learn_rate := none } (.scl 1) (.scl 0) none
  exact ⟨h.1, h.2.1, h.2.2.1,
    h.2.2.2 { eta := 1, mom := 0, lmbda := 0, lp := 0 } (.scl 2) (.scl 3)⟩

/-- C1 counterexample: with `lp = 3`, `Adagrad.update_change` raises, yet
the state is mutated: the assignment to `adagrad_learn_rate` at
`support.py` line 105 runs before the `lp`-dispatch, so the claim's
"performs no state mutation" fails on `Adagrad`. -/
theorem invalid_lp_adagrad_mutates_counterexample :
    ((Adagrad.update_change (fun x => x) { eta := 1/100, mom := 0, lmbda := 0, lp := 3 }
        { adagrad_learn_rate := none } (.scl 1) (.scl 0)).1
       = .error (.notImplementedError "No method for lp > 2 has been implemented")) ∧
    (Adagrad.update_change (fun x => x) { eta := 1/100, mom := 0, lmbda := 0, lp := 3 }
        { adagrad_learn_rate := none } (.scl 1) (.scl 0)).2
      ≠ { adagrad_learn_rate := none } := by
  constructor
  · norm_num [Adagrad.update_change, Adagrad.update_result]
  · simp [Adagrad.update_change]

/-- C2 (amended): no optimizer variant performs a shape check of its own.
`PlainGD` with `lp = 0` never looks at `previous_update` and succeeds on
any shapes; a variant that does combine the mismatched `previous_update`
fails with the tensor library's broadcast `ValueError` (shown for
`MomentumGD` on vectors of incompatible lengths); and `RMSprop` commits
its new moving average, and `ADAM` its new moments, before the final
addition, so a raise there does not leave the state unchanged. -/
theorem shape_mismatch_no_uniform_check
    (o : PlainGD) (h : o.lp = 0) (gradient : Tensor) (thOpt : Option Tensor)
    (om : MomentumGD) (hm : om.lp = 0) (gs ts : List ℚ)
    (hlen : gs.length ≠ ts.length) (hgs : gs.length ≠ 1) (hts : ts.length ≠ 1)
    (sqrt : ℚ → ℚ) (orms : RMSprop) (st : RMSpropState) (g th v2 : Tensor)
    (hv : RMSprop.vstep orms st.rmsProp_update g = .ok v2)
    (oad : ADAM) (sta : ADAMState) (ga tha s2 r2 : Tensor)
    (hs : ADAM.sstep oad sta.s ga = .ok s2) (hr : ADAM.rstep oad sta.r ga = .ok r2) :
    o.update_change gradient thOpt = .ok (Tensor.smul o.eta gradient) ∧
    om.update_change (.vec gs) (.vec ts) = .error .valueError ∧
    (RMSprop.update_change sqrt orms st g th).2 = { rmsProp_update := v2 } ∧
    (ADAM.update_change sqrt oad sta ga tha).2 = { s := s2, r := r2, t := sta.t } := by
  refine ⟨?_, ?_, ?_, ?_⟩
  · simp [PlainGD.update_change, h]
  · simp [MomentumGD.update_change, hm, Tensor.add, Tensor.smul, Tensor.map, Tensor.bop,
      hlen, hgs, hts]
  · simp [RMSprop.update_change, hv]
  · simp [ADAM.update_change, hs, hr]

/-- Witness for the amended C2 at concrete mismatched shapes. -/
theorem shape_mismatch_no_uniform_check_witness :
    PlainGD.update_change { eta := 1, lmbda := 0, lp := 0 } (.scl 2) (some (.vec [1, 2, 3]))
        = .ok (Tensor.smul 1 (.scl 2)) ∧
    MomentumGD.update_change { eta := 1, mom := 1, lmbda := 0, lp := 0 }
        (.vec [1, 2]) (.vec [1, 2, 3]) = .error .valueError ∧
    (RMSprop.update_change (fun x => x) { eta := 1, decay := 0, lmbda := 0 }
        { rmsProp_update := .scl 0 } (.scl 1) (.scl 0)).2
        = { rmsProp_update := .scl 1 } ∧
    (ADAM.update_change (fun x => x) { eta := 1, decay1 := 0, decay2 := 0, lmbda := 0 }
        { s := .scl 0, r := .scl 0, t := 1 } (.scl 1) (.scl 0)).2
        = { s := .scl 1, r := .scl 1, t := 1 } := by
  have hv : RMSprop.vstep { eta := 1, decay := 0, lmbda := 0 }
      (RMSpropState.rmsProp_update { rmsProp_update := .scl 0 }) (.scl 1) = .ok (.scl 1) := by
    norm_num [RMSprop.vstep, Tensor.smul, Tensor.map, Tensor.mul, Tensor.add, Tensor.bop,
      exceptBind_ok]
  have hs : ADAM.sstep { eta := 1, decay1 := 0, decay2 := 0, lmbda := 0 }
      (ADAMState.s { s := .scl 0, r := .scl 0, t := 1 }) (.scl 1) = .ok (.scl 1) := by
    norm_num [ADAM.sstep, Tensor.smul, Tensor.map, Tensor.add, Tensor.bop]
  have hr : ADAM.rstep { eta := 1, decay1 := 0, decay2 := 0, lmbda := 0 }
      (ADAMState.r { s := .scl 0, r := .scl 0, t := 1 }) (.scl 1) = .ok (.scl 1) := by
    norm_num [ADAM.rstep, Tensor.smul, Tensor.map, Tensor.mul, Tensor.add, Tensor.bop,
      exceptBind_ok]
  exact shape_mismatch_no_uniform_check
    { eta := 1, lmbda := 0, lp := 0 } rfl (.scl 2) (some (.vec [1, 2, 3]))
    { eta := 1, mom := 1, lmbda := 0, lp := 0 } rfl [1, 2] [1, 2, 3]
    (by norm_num) (by norm_num) (by norm_num)
    (fun x => x) { eta := 1, decay := 0, lmbda := 0 } { rmsProp_update := .scl 0 }
    (.scl 1) (.scl 0) (.scl 1) hv
    { eta := 1, decay1 := 0, decay2 := 0, lmbda := 0 } { s := .scl 0, r := .scl 0, t := 1 }
    (.scl 1) (.scl 0) (.scl 1) (.scl 1) hs hr

/-- C2 counterexample: `PlainGD` with `lp = 0` and mismatched shapes
raises nothing at all, and `RMSprop` with mismatched shapes raises the
broadcast error only after its moving average has already been mutated,
so neither half of the claim holds as stated. -/
theorem shape_mismatch_counterexample :
    PlainGD.update_change { eta := 1/100, lmbda := 0, lp := 0 } (.vec [1, 2])
        (some (.vec [1, 2, 3])) = .ok (.vec [1/100, 1/50]) ∧
    (RMSprop.update_change (fun x => x) { eta := 1/100, decay := 9/10, lmbda := 1 }
        { rmsProp_update := .scl 0 } (.vec [1, 2]) (.vec [1, 2, 3])).1 = .error .valueError ∧
    (RMSprop.update_change (fun x => x) { eta := 1/100, decay := 9/10, lmbda := 1 }
        { rmsProp_update := .scl 0 } (.vec [1, 2]) (.vec [1, 2, 3])).2
      ≠ { rmsProp_update := .scl 0 } := by
  refine ⟨?_, ?_, ?_⟩
  · norm_num [PlainGD.update_change, Tensor.smul, Tensor.map]
  · norm_num [RMSprop.update_change, RMSprop.vstep, Tensor.smul, Tensor.map, Tensor.mul,
      Tensor.add, Tensor.bop, exceptBind_ok, exceptBind_error]
  · norm_num [RMSprop.update_change, RMSprop.vstep, Tensor.smul, Tensor.map, Tensor.mul,
      Tensor.add, Tensor.bop, exceptBind_ok, exceptBind_error]
    exact fun hfalse => Tensor.noConfusion hfalse

lemma Adagrad.adaptive_rate_eq (sqrt : ℚ → ℚ) (o : Adagrad) (g : Tensor) :
    Adagrad.adaptive_rate sqrt o g
      = g.map (fun x => o.eta / (1 / 10000000 + sqrt (x * x))) :=
  Tensor.map_map_fuse _ _ _

/-- C4: `Adagrad.update_change` carries no functional state across calls:
for any valid `lp` the returned value is exactly the spec's elementwise
formula `gradient * (eta / (eps + sqrt(gradient*gradient))) +
momentum * previous_update + regularization_term(previous_update)` with
`eps = 1e-7`, and the returned value is the same whatever state the
instance held before the call. -/
theorem adagrad_memoryless_matches_formula (sqrt : ℚ → ℚ) (o : Adagrad)
    (st st2 : AdagradState) (gradient theta_m1 : Tensor)
    (hlp : o.lp = 0 ∨ o.lp = 1 ∨ o.lp = 2) :
    (Adagrad.update_change sqrt o st gradient theta_m1).1
        = adagradSpecUpdate sqrt o.eta o.mom o.lmbda o.lp gradient theta_m1 ∧
    (Adagrad.update_change sqrt o st gradient theta_m1).1
        = (Adagrad.update_change sqrt o st2 gradient theta_m1).1 := by
  refine ⟨?_, rfl⟩
  show Adagrad.update_result sqrt o gradient theta_m1 = _
  rcases hlp with h | h | h
  · simp only [Adagrad.update_result, adagradSpecUpdate, Adagrad.adaptive_rate_eq, h,
      regularization]
    norm_num
    cases hmul : Tensor.mul gradient
        (gradient.map fun x => o.eta / (1 / 10000000 + sqrt (x * x))) with
    | error e => simp [exceptBind_error]
    | ok base =>
        simp only [exceptBind_ok]
        cases hadd : Tensor.add base (Tensor.smul o.mom theta_m1) with
        | error e => simp [exceptBind_error]
        | ok wm => simp [exceptBind_ok, Tensor.add_scl_zero]
  · simp only [Adagrad.update_result, adagradSpecUpdate, Adagrad.adaptive_rate_eq, h,
      regularization]
    norm_num
  · simp only [Adagrad.update_result, adagradSpecUpdate, Adagrad.adaptive_rate_eq, h,
      regularization]
    norm_num

/-- Witness for C4 at `lp = 1` and two different prior states. -/
theorem adagrad_memoryless_matches_formula_witness :
    (Adagrad.update_change (fun x => x) { eta := 1, mom := 1/2, lmbda := 2, lp := 1 }
        { adagrad_learn_rate := none } (.scl 3) (.scl (-4))).1
      = adagradSpecUpdate (fun x => x) 1 (1/2) 2 1 (.scl 3) (.scl (-4)) ∧
    (Adagrad.update_change (fun x => x) { eta := 1, mom := 1/2, lmbda := 2, lp := 1 }
        { adagrad_learn_rate := none } (.scl 3) (.scl (-4))).1
      = (Adagrad.update_change (fun x => x) { eta := 1, mom := 1/2, lmbda := 2, lp := 1 }
          { adagrad_learn_rate := some (.scl 9) } (.scl 3) (.scl (-4))).1 :=
  adagrad_memoryless_matches_formula (fun x => x)
    { eta := 1, mom := 1/2, lmbda := 2, lp := 1 }
    { adagrad_learn_rate := none } { adagrad_learn_rate := some (.scl 9) }
    (.scl 3) (.scl (-4)) (Or.inr (Or.inl rfl))

/-- C5: with any square root that is non-negative on non-negative inputs,
the divisor `eps + sqrt(gradient*gradient)` of Adagrad's adaptive rate
(`eps = 1e-7`) is strictly positive at every component, so the elementwise
division is defined, and `Adagrad.update_change` on same-shape inputs and
a valid `lp` returns a value (never a division failure), including for a
zero gradient. -/
theorem adagrad_divisor_positive_output_defined
    (sqrt : ℚ → ℚ) (hsqrt : ∀ x : ℚ, 0 ≤ x → 0 ≤ sqrt x)
    (o : Adagrad) (st : AdagradState) (gs ts : List ℚ)
    (hlen : gs.length = ts.length)
    (hlp : o.lp = 0 ∨ o.lp = 1 ∨ o.lp = 2) :
    (∀ x : ℚ, 0 < 1 / 10000000 + sqrt (x * x)) ∧
    (∃ u : Tensor, (Adagrad.update_change sqrt o st (.vec gs) (.vec ts)).1 = .ok u) := by
  constructor
  · intro x
    have h1 : (0:ℚ) ≤ sqrt (x * x) := hsqrt _ (mul_self_nonneg x)
    linarith
  · show ∃ u, Adagrad.update_result sqrt o (.vec gs) (.vec ts) = .ok u
    have hrate : Adagrad.adaptive_rate sqrt o (.vec gs)
        = .vec (gs.map (fun x => o.eta / (1 / 10000000 + sqrt (x * x)))) := by
      rw [Adagrad.adaptive_rate_eq]; rfl
    have hmul : Tensor.mul (.vec gs) (Adagrad.adaptive_rate sqrt o (.vec gs))
        = .ok (.vec (List.zipWith (fun a b => a * b) gs
            (gs.map (fun x => o.eta / (1 / 10000000 + sqrt (x * x)))))) := by
      rw [hrate]; exact Tensor.bop_vec _ _ _ (by simp)
    set L0 := List.zipWith (fun a b => a * b) gs
        (gs.map (fun x => o.eta / (1 / 10000000 + sqrt (x * x)))) with hL0
    have hlen0 : L0.length = ts.length := by simp [hL0, hlen]
    have hsm : Tensor.smul o.mom (.vec ts) = .vec (ts.map (fun x => o.mom * x)) := rfl
    have hadd1 : Tensor.add (.vec L0) (Tensor.smul o.mom (.vec ts))
        = .ok (.vec (List.zipWith (fun a b => a + b) L0 (ts.map (fun x => o.mom * x)))) := by
      rw [hsm]; exact Tensor.bop_vec _ _ _ (by simp [hlen0])
    set L1 := List.zipWith (fun a b => a + b) L0 (ts.map (fun x => o.mom * x)) with hL1
    have hlen1 : L1.length = ts.length := by simp [hL1, hlen0]
    rcases hlp with h | h | h
    · have hres : Adagrad.update_result sqrt o (.vec gs) (.vec ts) = .ok (.vec L1) := by
        simp only [Adagrad.update_result, h, Int.reduceEq, reduceIte]
        rw [hmul, exceptBind_ok]
        exact hadd1
      exact ⟨_, hres⟩
    · have hsgn : Tensor.smul o.lmbda (Tensor.sign (.vec ts))
          = .vec ((ts.map npSign).map (fun x => o.lmbda * x)) := rfl
      have hfin : Tensor.add (.vec L1) (.vec ((ts.map npSign).map (fun x => o.lmbda * x)))
          = .ok (.vec (List.zipWith (fun a b => a + b) L1
              ((ts.map npSign).map (fun x => o.lmbda * x)))) :=
        Tensor.bop_vec _ _ _ (by simp [hlen1])
      have hres : Adagrad.update_result sqrt o (.vec gs) (.vec ts)
          = .ok (.vec (List.zipWith (fun a b => a + b) L1
              ((ts.map npSign).map (fun x => o.lmbda * x)))) := by
        simp only [Adagrad.update_result, h, Int.reduceEq, reduceIte]
        rw [hmul, exceptBind_ok, hadd1, exceptBind_ok, hsgn]
        exact hfin
      exact ⟨_, hres⟩
    · have hsm2 : Tensor.smul o.lmbda (.vec ts) = .vec (ts.map (fun x => o.lmbda * x)) := rfl
      have hfin : Tensor.add (.vec L1) (.vec (ts.map (fun x => o.lmbda * x)))
          = .ok (.vec (List.zipWith (fun a b => a + b) L1 (ts.map (fun x => o.lmbda * x)))) :=
        Tensor.bop_vec _ _ _ (by simp [hlen1])
      have hres : Adagrad.update_result sqrt o (.vec gs) (.vec ts)
          = .ok (.vec (List.zipWith (fun a b => a + b) L1 (ts.map (fun x => o.lmbda * x)))) := by
        simp only [Adagrad.update_result, h, Int.reduceEq, reduceIte]
        rw [hmul, exceptBind_ok, hadd1, exceptBind_ok, hsm2]
        exact hfin
      exact ⟨_, hres⟩

/-- Witness for C5 with the zero square root and a zero gradient; the
returned update is the concrete tensor `[0]`. -/
theorem adagrad_divisor_positive_output_defined_witness :
    (0 < (1 : ℚ) / 10000000 + 0) ∧
    (Adagrad.update_change (fun _ => 0)
        { eta := 1/100, mom := 0, lmbda := 0, lp := 0 }
        { adagrad_learn_rate := none } (.vec [0]) (.vec [5])).1 = .ok (.vec [0]) :=
  ⟨(adagrad_divisor_positive_output_defined (fun _ => 0) (fun _ _ => le_refl 0)
      { eta := 1/100, mom := 0, lmbda := 0, lp := 0 } { adagrad_learn_rate := none }
      [0] [5] rfl (Or.inl rfl)).1 3,
   by norm_num [Adagrad.update_change, Adagrad.update_result, Adagrad.adaptive_rate,
     Tensor.mul, Tensor.add, Tensor.bop, Tensor.smul, Tensor.map, exceptBind_ok]⟩

lemma zipWith_map_both (f : ℚ → ℚ → ℚ) (p q : ℚ → ℚ) (as bs : List ℚ) :
    List.zipWith f (as.map p) (bs.map q)
      = List.zipWith (fun a b => f (p a) (q b)) as bs := by
  rw [List.zipWith_map_left, List.zipWith_map_right]

lemma rmsprop_vstep_vec (o : RMSprop) (vs gs : List ℚ) (hvg : vs.length = gs.length) :
    RMSprop.vstep o (.vec vs) (.vec gs)
      = .ok (.vec (List.zipWith (fun v g => o.decay * v + (1 - o.decay) * g * g) vs gs)) := by
  have hg2 : Tensor.mul (Tensor.smul (1 - o.decay) (.vec gs)) (.vec gs)
      = .ok (.vec (gs.map (fun g => (1 - o.decay) * g * g))) := by
    show Tensor.bop _ (.vec (gs.map (fun x => (1 - o.decay) * x))) (.vec gs) = _
    rw [Tensor.bop_vec _ _ _ (by simp)]
    rw [List.zipWith_map_left, List.zipWith_same]
  show (do
    let g2 ← Tensor.mul (Tensor.smul (1 - o.decay) (.vec gs)) (.vec gs)
    Tensor.add (Tensor.smul o.decay (.vec vs)) g2) = _
  rw [hg2, exceptBind_ok]
  show Tensor.bop _ (.vec (vs.map (fun x => o.decay * x)))
      (.vec (gs.map (fun g => (1 - o.decay) * g * g))) = _
  rw [Tensor.bop_vec _ _ _ (by simp [hvg]), zipWith_map_both]

/-- C6: on same-shape inputs, `RMSprop.update_change` mutates the moving
average to exactly `decay * v + (1 - decay) * gradient * gradient` and
returns elementwise `eta / sqrt(v_new + eps) * gradient +
lambda * previous_update` with `eps = 1e-8`; the regularization term is
the unconditional `lambda * previous_update` (the `RMSprop` structure has
no `lp` hyperparameter at all, mirroring `RMSprop.__init__`). -/
theorem rmsprop_update_mutates_v_and_formula (sqrt : ℚ → ℚ) (o : RMSprop)
    (vs gs ts : List ℚ) (hvg : vs.length = gs.length) (hgt : gs.length = ts.length) :
    (RMSprop.update_change sqrt o { rmsProp_update := .vec vs }
        (.vec gs) (.vec ts)).2.rmsProp_update
      = .vec (List.zipWith (fun v g => o.decay * v + (1 - o.decay) * g * g) vs gs) ∧
    (RMSprop.update_change sqrt o { rmsProp_update := .vec vs } (.vec gs) (.vec ts)).1
      = .ok (.vec (List.zipWith (fun p t => p + o.lmbda * t)
          (List.zipWith (fun v g => o.eta / sqrt (v + 1 / 100000000) * g)
            (List.zipWith (fun v g => o.decay * v + (1 - o.decay) * g * g) vs gs) gs) ts)) := by
  have hv := rmsprop_vstep_vec o vs gs hvg
  set v2l := List.zipWith (fun v g => o.decay * v + (1 - o.decay) * g * g) vs gs with hv2l
  have hlenv2 : v2l.length = gs.length := by simp [hv2l, hvg]
  constructor
  · simp [RMSprop.update_change, hv]
  · have hmap : ((Tensor.vec v2l).map (fun x => x + 1 / 100000000)).map
        (fun x => o.eta / sqrt x)
        = .vec (v2l.map (fun v => o.eta / sqrt (v + 1 / 100000000))) := by
      rw [Tensor.map_map_fuse]; rfl
    have hmul : Tensor.mul (.vec (v2l.map (fun v => o.eta / sqrt (v + 1 / 100000000))))
        (.vec gs)
        = .ok (.vec (List.zipWith (fun v g => o.eta / sqrt (v + 1 / 100000000) * g)
            v2l gs)) := by
      show Tensor.bop _ _ _ = _
      rw [Tensor.bop_vec _ _ _ (by simp [hlenv2]), List.zipWith_map_left]
    have hadd : Tensor.add (.vec (List.zipWith
          (fun v g => o.eta / sqrt (v + 1 / 100000000) * g) v2l gs))
        (Tensor.smul o.lmbda (.vec ts))
        = .ok (.vec (List.zipWith (fun p t => p + o.lmbda * t)
            (List.zipWith (fun v g => o.eta / sqrt (v + 1 / 100000000) * g) v2l gs) ts)) := by
      show Tensor.bop _ _ (.vec (ts.map (fun x => o.lmbda * x))) = _
      rw [Tensor.bop_vec _ _ _ (by simp [hlenv2, hgt]), List.zipWith_map_right]
    simp only [RMSprop.update_change, hv]
    rw [hmap, hmul, exceptBind_ok]
    exact hadd

/-- Witness for C6: with `decay = 1/2`, `v = 0`, `gradient = 2`,
`previous_update = 3`, `eta = 1`, `lambda = 2` and the identity square
root, the new moving average is `2` and the returned update is
`1/(2 + 1e-8) * 2 + 2*3 = 1400000006/200000001`. -/
theorem rmsprop_update_mutates_v_and_formula_witness :
    (RMSprop.update_change (fun x => x) { eta := 1, decay := 1/2, lmbda := 2 }
        { rmsProp_update := .vec [0] } (.vec [2]) (.vec [3])).2.rmsProp_update
      = .vec [2] ∧
    (RMSprop.update_change (fun x => x) { eta := 1, decay := 1/2, lmbda := 2 }
        { rmsProp_update := .vec [0] } (.vec [2]) (.vec [3])).1
      = .ok (.vec [1400000006 / 200000001]) := by
  have h := rmsprop_update_mutates_v_and_formula (fun x => x)
    { eta := 1, decay := 1/2, lmbda := 2 } [0] [2] [3] rfl rfl
  refine ⟨?_, ?_⟩
  · rw [h.1]; norm_num
  · rw [h.2]; norm_num

lemma zipWith_zipWith_both (h f g : ℚ → ℚ → ℚ) :
    ∀ (as bs : List ℚ), List.zipWith h (List.zipWith f as bs) (List.zipWith g as bs)
      = List.zipWith (fun a b => h (f a b) (g a b)) as bs
  | [], _ => by simp
  | _ :: _, [] => by simp
  | a :: as, b :: bs => by
      simp [List.zipWith, zipWith_zipWith_both h f g as bs]

lemma zipWith_const_right (F : ℚ → ℚ) :
    ∀ (as bs : List ℚ), as.length = bs.length →
      List.zipWith (fun _ b => F b) as bs = bs.map F
  | [], [], _ => by simp
  | a :: as, b :: bs, h => by
      simp [List.zipWith, zipWith_const_right F as bs (by simpa using h)]

/-- C8: for a fixed gradient and a `previous_update` whose components are
all nonzero and not ±1, the `PlainGD` update with `lp = 2` differs from
the one with `lp = 1` by exactly `lambda * (previous_update -
sign(previous_update))`. -/
theorem plainGD_lp2_lp1_difference (eta lmbda : ℚ) (gs ts : List ℚ)
    (hlen : gs.length = ts.length)
    (hts : ∀ t ∈ ts, t ≠ 0 ∧ t ≠ 1 ∧ t ≠ -1) :
    (do
      let u2 ← PlainGD.update_change { eta := eta, lmbda := lmbda, lp := 2 }
        (.vec gs) (some (.vec ts))
      let u1 ← PlainGD.update_change { eta := eta, lmbda := lmbda, lp := 1 }
        (.vec gs) (some (.vec ts))
      Tensor.sub u2 u1)
    = (do
      let d ← Tensor.sub (.vec ts) (Tensor.sign (.vec ts))
      Except.ok (Tensor.smul lmbda d)) := by
  have hu2 : PlainGD.update_change { eta := eta, lmbda := lmbda, lp := 2 }
      (.vec gs) (some (.vec ts))
      = .ok (.vec (List.zipWith (fun g t => eta * g + lmbda * t) gs ts)) := by
    show Tensor.add (.vec (gs.map (fun x => eta * x))) (.vec (ts.map (fun x => lmbda * x))) = _
    show Tensor.bop _ _ _ = _
    rw [Tensor.bop_vec _ _ _ (by simp [hlen]), zipWith_map_both]
  have hu1 : PlainGD.update_change { eta := eta, lmbda := lmbda, lp := 1 }
      (.vec gs) (some (.vec ts))
      = .ok (.vec (List.zipWith (fun g t => eta * g + lmbda * npSign t) gs ts)) := by
    show Tensor.add (.vec (gs.map (fun x => eta * x)))
        (.vec ((ts.map npSign).map (fun x => lmbda * x))) = _
    show Tensor.bop _ _ _ = _
    rw [List.map_map, Tensor.bop_vec _ _ _ (by simp [hlen]), zipWith_map_both]
    rfl
  have hd : Tensor.sub (.vec ts) (Tensor.sign (.vec ts))
      = .ok (.vec (ts.map (fun t => t - npSign t))) := by
    show Tensor.bop _ _ (.vec (ts.map npSign)) = _
    rw [Tensor.bop_vec _ _ _ (by simp), List.zipWith_map_right, List.zipWith_same]
  rw [hu2, exceptBind_ok, hu1, exceptBind_ok, hd, exceptBind_ok]
  show Tensor.bop _ _ _ = _
  rw [Tensor.bop_vec _ _ _ (by simp [Nat.min_self]), zipWith_zipWith_both]
  have : (fun g t => eta * g + lmbda * t - (eta * g + lmbda * npSign t))
      = (fun g t : ℚ => lmbda * (t - npSign t)) := by
    funext g t; ring
  rw [this, zipWith_const_right _ gs ts hlen]
  show _ = Except.ok (Tensor.vec ((ts.map (fun t => t - npSign t)).map (fun x => lmbda * x)))
  rw [List.map_map]
  rfl

/-- Witness for C8 at `gradient = [3]`, `previous_update = [5]`. -/
theorem plainGD_lp2_lp1_difference_witness :
    (do
      let u2 ← PlainGD.update_change { eta := 1, lmbda := 2, lp := 2 }
        (.vec [3]) (some (.vec [5]))
      let u1 ← PlainGD.update_change { eta := 1, lmbda := 2, lp := 1 }
        (.vec [3]) (some (.vec [5]))
      Tensor.sub u2 u1)
    = (do
      let d ← Tensor.sub (.vec [5]) (Tensor.sign (.vec [5]))
      Except.ok (Tensor.smul 2 d)) :=
  plainGD_lp2_lp1_difference 1 2 [3] [5] rfl
    (by intro t ht; simp only [List.mem_singleton] at ht; subst ht; norm_num)
